import Mathlib

/-!
Verification of the dual ZED depth-viewer application (src/app.py).

Shallow embedding conventions:
* Depth pixels are modelled by `DVal`: a finite rational value, or one of the
  IEEE special values NaN / +Inf / -Inf that the code replaces before any
  arithmetic happens (`np.nan_to_num`).  All arithmetic after the replacement
  step is exact rational arithmetic.
* A depth frame is a `List (List DVal)` (rows of pixels), a color image a
  `List (List Color)` of the same shape.
* `cv2.applyColorMap` is modelled by an abstract palette `ℕ → Color`
  applied pointwise, mirroring the `colormap` parameter of the Python code.
* Fallible Python code (functions that can raise) is modelled with
  `Except`; the error value carries the mutated state at the raise point,
  mirroring Python's in-place mutation semantics.
* Interaction with the camera SDK is modelled by an oracle (`GrabResult`) plus
  an explicit trace of device calls (`DevEvent`).
-/

namespace App

/-- A BGR triple as produced by `cv2.applyColorMap`. -/
abbrev Color := ℕ × ℕ × ℕ

/-- One entry of a raw depth measurement grid: a finite value or an IEEE
special value (NaN, +Inf, -Inf). -/
inductive DVal where
  | nan : DVal
  | posinf : DVal
  | neginf : DVal
  | fin : ℚ → DVal
deriving DecidableEq, Repr

/-- `np.nan_to_num(x, nan=0.0, posinf=0.0, neginf=0.0)`: NaN and the two
infinities become `0.0`, finite values are unchanged (src/app.py line 14). -/
def nan_to_num : DVal → ℚ
  | .nan => 0
  | .posinf => 0
  | .neginf => 0
  | .fin x => x

/-- `np.clip(x, lo, hi)` on a scalar: `minimum(hi, maximum(x, lo))`
(src/app.py line 15). -/
def clipQ (lo hi x : ℚ) : ℚ := min hi (max x lo)

/-- Apply a function to every pixel of a grid. -/
def mapGrid (f : α → β) (g : List (List α)) : List (List β) :=
  g.map (List.map f)

/-- All pixel values of a grid, flattened row-major. -/
def gridVals (g : List (List ℚ)) : List ℚ := g.flatten

/-- The smallest pixel value of a grid (0 for an empty grid), as computed by
`cv2.minMaxIdx` inside `cv2.normalize`. -/
def gridMin (g : List (List ℚ)) : ℚ := ((gridVals g).min?).getD 0

/-- The largest pixel value of a grid (0 for an empty grid). -/
def gridMax (g : List (List ℚ)) : ℚ := ((gridVals g).max?).getD 0

/-- Scalar rescaling performed by `cv2.normalize(..., 0, 255, NORM_MINMAX)`:
`x ↦ (x - lo) * 255 / (hi - lo)`, and `0` when the source range is
degenerate (OpenCV uses scale `0` when `hi - lo` is not positive, which in
exact arithmetic means `hi = lo`). -/
def normVal (lo hi x : ℚ) : ℚ :=
  if hi = lo then 0 else (x - lo) * 255 / (hi - lo)

/-- Replacement of NaN/Inf entries over a whole grid (pipeline step 1). -/
def replaceInvalid (g : List (List DVal)) : List (List ℚ) :=
  mapGrid nan_to_num g

/-- Clipping over a whole grid (pipeline step 2). -/
def clipGrid (lo hi : ℚ) (g : List (List ℚ)) : List (List ℚ) :=
  mapGrid (clipQ lo hi) g

/-- `cv2.normalize(g, None, 0, 255, cv2.NORM_MINMAX)`: min-max rescaling of
the whole grid over the grid's own minimum and maximum (pipeline step 3). -/
def normalizeMinMax (g : List (List ℚ)) : List (List ℚ) :=
  mapGrid (normVal (gridMin g) (gridMax g)) g

/-- `astype(np.uint8)` on one value: float-to-unsigned conversion truncates
toward zero; all values fed to it here are nonnegative, so this is a floor,
reduced mod 2^8 for the 8-bit width (pipeline step 4). -/
def toU8 (x : ℚ) : ℕ := (Int.floor x).toNat % 256

/-- `astype(np.uint8)` over a whole grid. -/
def quantizeU8 (g : List (List ℚ)) : List (List ℕ) :=
  mapGrid toU8 g

/-- `cv2.applyColorMap`: pointwise palette lookup (pipeline step 5). -/
def applyColorMapGrid (palette : ℕ → Color) (g : List (List ℕ)) : List (List Color) :=
  mapGrid palette g

/-- `process_depth_image(depth_np, clip_range, colormap)` from src/app.py
lines 13-19: replace NaN/Inf by 0, clip to `clip_range`, min-max normalize to
[0, 255] over the frame's own values, convert to `uint8`, apply the palette. -/
def process_depth_image (depth : List (List DVal)) (clip_lo clip_hi : ℚ)
    (palette : ℕ → Color) : List (List Color) :=
  applyColorMapGrid palette
    (quantizeU8 (normalizeMinMax (clipGrid clip_lo clip_hi (replaceInvalid depth))))

/-- The spec scenario's input grid `[[0, 500, 1000], [NaN, -50, 2000]]`. -/
def specGrid : List (List DVal) :=
  [[DVal.fin 0, DVal.fin 500, DVal.fin 1000],
   [DVal.nan, DVal.fin (-50), DVal.fin 2000]]

/-- C1: with clipRange = (0, 1000) and the input grid
`[[0, 500, 1000], [NaN, -50, 2000]]`, the colorizer follows exactly the
spec's pipeline: the clipped grid is `[[0,500,1000],[0,0,1000]]`, the 8-bit
grid (normalized over the frame's min 0 and max 1000) is
`[[0,127,255],[0,0,255]]`, and the output image is the palette applied
pointwise to that 8-bit grid, for every palette. -/
theorem C1_spec_scenario (palette : ℕ → Color) :
    clipGrid 0 1000 (replaceInvalid specGrid) = [[0, 500, 1000], [0, 0, 1000]] ∧
    quantizeU8 (normalizeMinMax (clipGrid 0 1000 (replaceInvalid specGrid))) =
      [[0, 127, 255], [0, 0, 255]] ∧
    process_depth_image specGrid 0 1000 palette =
      [[palette 0, palette 127, palette 255],
       [palette 0, palette 0, palette 255]] := by
  have hc : clipGrid 0 1000 (replaceInvalid specGrid) = [[0, 500, 1000], [0, 0, 1000]] := by
    decide
  have hq : quantizeU8 (normalizeMinMax (clipGrid 0 1000 (replaceInvalid specGrid))) =
      [[0, 127, 255], [0, 0, 255]] := by
    rw [hc]
    have hmin : gridMin [[(0 : ℚ), 500, 1000], [0, 0, 1000]] = 0 := by decide
    have hmax : gridMax [[(0 : ℚ), 500, 1000], [0, 0, 1000]] = 1000 := by decide
    simp only [quantizeU8, normalizeMinMax, hmin, hmax, mapGrid, List.map, normVal, toU8]
    norm_num
    decide
  refine ⟨hc, hq, ?_⟩
  show applyColorMapGrid palette
      (quantizeU8 (normalizeMinMax (clipGrid 0 1000 (replaceInvalid specGrid)))) = _
  rw [hq]
  rfl

/-- Pixel access (row `i`, column `j`) on a grid; `none` when out of range. -/
def pixel? (g : List (List α)) (i j : ℕ) : Option α :=
  (g[i]?).bind fun row => row[j]?

theorem pixel?_mapGrid (f : α → β) (g : List (List α)) (i j : ℕ) :
    pixel? (mapGrid f g) i j = (pixel? g i j).map f := by
  simp only [pixel?, mapGrid, List.getElem?_map]
  cases g[i]? <;> simp

theorem mapGrid_mapGrid (f : β → γ) (g : α → β) (x : List (List α)) :
    mapGrid f (mapGrid g x) = mapGrid (fun a => f (g a)) x := by
  simp [mapGrid, List.map_map, Function.comp_def]

theorem mapGrid_congr (f g : α → β) (x : List (List α)) (h : ∀ a, f a = g a) :
    mapGrid f x = mapGrid g x := by
  rw [funext h]

/-- The value of one output pixel of `process_depth_image`, expressed from the
corresponding pixel of the clipped grid. -/
theorem pixel?_process (palette : ℕ → Color) (lo hi : ℚ) (depth : List (List DVal))
    (i j : ℕ) (x : ℚ)
    (hx : pixel? (clipGrid lo hi (replaceInvalid depth)) i j = some x) :
    pixel? (process_depth_image depth lo hi palette) i j =
      some (palette (toU8 (normVal (gridMin (clipGrid lo hi (replaceInvalid depth)))
        (gridMax (clipGrid lo hi (replaceInvalid depth))) x))) := by
  simp only [process_depth_image, applyColorMapGrid, quantizeU8, normalizeMinMax,
    pixel?_mapGrid, hx, Option.map_some']

/-- C2: when the clipped frame's minimum and maximum are distinct (the frame
spans a nondegenerate value range), normalization is over the current frame's
clipped values: every pixel holding the clipped frame's minimum is rendered
as `palette 0` and every pixel holding its maximum as `palette 255`. -/
theorem C2_normalization_is_frame_relative (palette : ℕ → Color) (lo hi : ℚ)
    (depth : List (List DVal)) (i j : ℕ)
    (hne : gridMin (clipGrid lo hi (replaceInvalid depth)) ≠
      gridMax (clipGrid lo hi (replaceInvalid depth))) :
    (pixel? (clipGrid lo hi (replaceInvalid depth)) i j =
        some (gridMin (clipGrid lo hi (replaceInvalid depth))) →
      pixel? (process_depth_image depth lo hi palette) i j = some (palette 0)) ∧
    (pixel? (clipGrid lo hi (replaceInvalid depth)) i j =
        some (gridMax (clipGrid lo hi (replaceInvalid depth))) →
      pixel? (process_depth_image depth lo hi palette) i j = some (palette 255)) := by
  constructor
  · intro h
    rw [pixel?_process palette lo hi depth i j _ h]
    have hv : normVal (gridMin (clipGrid lo hi (replaceInvalid depth)))
        (gridMax (clipGrid lo hi (replaceInvalid depth)))
        (gridMin (clipGrid lo hi (replaceInvalid depth))) = 0 := by
      unfold normVal
      split
      · rfl
      · rw [sub_self, zero_mul, zero_div]
    rw [hv]
    norm_num [toU8]
  · intro h
    rw [pixel?_process palette lo hi depth i j _ h]
    have hsub : gridMax (clipGrid lo hi (replaceInvalid depth)) -
        gridMin (clipGrid lo hi (replaceInvalid depth)) ≠ 0 :=
      sub_ne_zero.mpr (fun hEq => hne hEq.symm)
    have hv : normVal (gridMin (clipGrid lo hi (replaceInvalid depth)))
        (gridMax (clipGrid lo hi (replaceInvalid depth)))
        (gridMax (clipGrid lo hi (replaceInvalid depth))) = 255 := by
      unfold normVal
      rw [if_neg (fun hEq => hne hEq.symm), mul_comm, mul_div_assoc, div_self hsub, mul_one]
    have h255 : toU8 255 = 255 := by
      norm_num [toU8]
      decide
    rw [hv, h255]

/-- A small two-pixel frame used to witness C2. -/
def rampGrid : List (List DVal) := [[DVal.fin 0, DVal.fin 10]]

/-- A concrete palette used by witnesses. -/
def grayPalette : ℕ → Color := fun n => (n, n, n)

theorem C2_normalization_is_frame_relative_witness :
    pixel? (process_depth_image rampGrid 0 1000 grayPalette) 0 0 =
      some (grayPalette 0) ∧
    pixel? (process_depth_image rampGrid 0 1000 grayPalette) 0 1 =
      some (grayPalette 255) :=
  ⟨(C2_normalization_is_frame_relative grayPalette 0 1000 rampGrid 0 0 (by decide)).1
      (by decide),
   (C2_normalization_is_frame_relative grayPalette 0 1000 rampGrid 0 1 (by decide)).2
      (by decide)⟩

/-- C3: a frame that is uniform after NaN/Inf replacement and clipping (its
clipped minimum equals its clipped maximum, which covers all-NaN/Inf frames
and single-valued frames) is rendered as `palette 0` at every pixel, with the
input's shape; the degenerate-range branch avoids any division. -/
theorem C3_uniform_frame_all_zero (palette : ℕ → Color) (lo hi : ℚ)
    (depth : List (List DVal))
    (huni : gridMin (clipGrid lo hi (replaceInvalid depth)) =
      gridMax (clipGrid lo hi (replaceInvalid depth))) :
    process_depth_image depth lo hi palette =
      mapGrid (fun _ => palette 0) (clipGrid lo hi (replaceInvalid depth)) := by
  simp only [process_depth_image, applyColorMapGrid, quantizeU8, normalizeMinMax,
    mapGrid_mapGrid]
  refine mapGrid_congr _ _ _ (fun a => ?_)
  rw [normVal, if_pos huni.symm]
  norm_num [toU8]

/-- A frame holding only IEEE special values, used to witness C3. -/
def invalidOnlyGrid : List (List DVal) :=
  [[DVal.nan, DVal.posinf], [DVal.neginf, DVal.nan]]

theorem C3_uniform_frame_all_zero_witness :
    process_depth_image invalidOnlyGrid 0 1000 grayPalette =
      mapGrid (fun _ => grayPalette 0) (clipGrid 0 1000 (replaceInvalid invalidOnlyGrid)) :=
  C3_uniform_frame_all_zero grayPalette 0 1000 invalidOnlyGrid (by decide)

/-- The resolution enum values used by the viewer (`sl.RESOLUTION`); `AUTO`
stands for the SDK default carried by fresh `InitParameters`. -/
inductive Resolution where
  | HD1080
  | HD720
  | VGA
  | AUTO
deriving DecidableEq, Repr

/-- Device-SDK calls observable at the camera boundary. -/
inductive DevEvent where
  | openDev
  | grabDev
  | retrieveDev
  | closeDev
deriving DecidableEq, Repr

/-- One camera session (`ZEDCameraViewer`): the `running` flag and the
configuration the claims depend on (resolution, fps, clip range, palette). -/
structure Session where
  running : Bool
  resolution : Resolution
  fps : ℤ
  clip_range : ℚ × ℚ
  colormap : ℕ → Color

/-- `ZEDCameraViewer.__init__` (src/app.py lines 22-29): not running, default
clip range (0, 5000), caller-provided palette. -/
def mkViewer (colormap : ℕ → Color) : Session :=
  { running := false, resolution := Resolution.AUTO, fps := 0,
    clip_range := (0, 5000), colormap := colormap }

/-- The `resolutions` dictionary of `set_resolution` (src/app.py lines 32-36). -/
def resolutionTable : List (String × Resolution) :=
  [("HD1080", Resolution.HD1080), ("HD720", Resolution.HD720), ("VGA", Resolution.VGA)]

/-- `set_resolution` (src/app.py lines 31-37): dictionary lookup with default
`HD720` (`dict.get(key, HD720)`). -/
def set_resolution (s : Session) (resolution_text : String) : Session :=
  { s with resolution := (resolutionTable.lookup resolution_text).getD Resolution.HD720 }

/-- Decimal digit run to a natural number; `none` when the run is empty or
holds a non-digit. -/
def digitsToNat? (ds : List Char) : Option ℕ :=
  if ds ≠ [] ∧ ds.all Char.isDigit then
    some (ds.foldl (fun acc c => 10 * acc + (c.toNat - 48)) 0)
  else none

/-- Python `int(text)` on a decimal string token: optional surrounding
whitespace, optional sign, then at least one digit; anything else raises
`ValueError` (modelled as `none`).  Underscore digit grouping is not
modelled; no UI token uses it. -/
def pyInt? (text : String) : Option ℤ :=
  let cs := ((text.toList.dropWhile Char.isWhitespace).reverse.dropWhile
    Char.isWhitespace).reverse
  match cs with
  | '-' :: ds => (digitsToNat? ds).map (fun n => -(n : ℤ))
  | '+' :: ds => (digitsToNat? ds).map (fun n => (n : ℤ))
  | ds => (digitsToNat? ds).map (fun n => (n : ℤ))

/-- `set_fps` (src/app.py lines 39-40): `int(fps_text)` with no fallback; a
non-integer token raises `ValueError`. -/
def set_fps (s : Session) (fps_text : String) : Except String Session :=
  match pyInt? fps_text with
  | some n => Except.ok { s with fps := n }
  | none => Except.error "ValueError"

/-- `set_clip_range` (src/app.py lines 42-43). -/
def set_clip_range (s : Session) (clip_min clip_max : ℚ) : Session :=
  { s with clip_range := (clip_min, clip_max) }

/-- `start` (src/app.py lines 45-48): `camera.open` is modelled by the oracle
bit `openOk`; on failure a `RuntimeError` is raised before `running` is set,
so the error value carries the unchanged session. -/
def start (openOk : Bool) (s : Session) : Except (String × Session) Session :=
  if openOk then Except.ok { s with running := true }
  else Except.error ("카메라 열기 실패", s)

/-- `stop` (src/app.py lines 50-52): clear the flag and close the device. -/
def stop (s : Session) : Session × List DevEvent :=
  ({ s with running := false }, [DevEvent.closeDev])

/-- Oracle for one `grab` / `retrieve_measure` interaction: whether the grab
reports `SUCCESS`, and the depth grid `retrieve_measure` would produce. -/
structure GrabResult where
  grabOk : Bool
  frame : List (List DVal)

/-- `get_depth_image` (src/app.py lines 54-64), together with the trace of
SDK calls it performs.  The function is total: every outcome is `none` or
`some image`, never an exception. -/
def get_depth_image (s : Session) (dev : GrabResult) :
    Option (List (List Color)) × List DevEvent :=
  if s.running = false then (none, [])
  else if dev.grabOk then
    let h := dev.frame.length
    let w := ((dev.frame.head?).getD []).length
    if h = 0 ∨ w = 0 then (none, [DevEvent.grabDev, DevEvent.retrieveDev])
    else (some (process_depth_image dev.frame s.clip_range.1 s.clip_range.2 s.colormap),
          [DevEvent.grabDev, DevEvent.retrieveDev])
  else (none, [DevEvent.grabDev])

/-- C4: `get_depth_image` never raises (it is a total function into
`Option`); it returns no frame exactly when the session is not running, or
the grab fails, or the retrieved grid has zero height or width; on a closed
session it returns `none` with an empty device-call trace (the device is not
touched); in every other case it returns the colorized depth grid. -/
theorem C4_get_depth_image_none_iff (s : Session) (dev : GrabResult) :
    ((get_depth_image s dev).1 = none ↔
      s.running = false ∨ dev.grabOk = false ∨ dev.frame.length = 0 ∨
        ((dev.frame.head?).getD []).length = 0) ∧
    (s.running = false → get_depth_image s dev = (none, [])) ∧
    (s.running = true → dev.grabOk = true → dev.frame.length ≠ 0 →
      ((dev.frame.head?).getD []).length ≠ 0 →
      (get_depth_image s dev).1 =
        some (process_depth_image dev.frame s.clip_range.1 s.clip_range.2 s.colormap)) := by
  cases hr : s.running with
  | false => simp [get_depth_image, hr]
  | true =>
    cases hg : dev.grabOk with
    | false => simp [get_depth_image, hr, hg]
    | true =>
      by_cases hh : dev.frame = []
      · simp [get_depth_image, hr, hg, hh]
      · by_cases hw : (dev.frame.head?).getD [] = []
        · simp [get_depth_image, hr, hg, hh, hw]
        · simp [get_depth_image, hr, hg, hh, hw]

/-- A device oracle producing one valid 1x1 depth frame. -/
def devOneFrame : GrabResult := { grabOk := true, frame := [[DVal.fin 5]] }

/-- A session that has been started (running, clip range (0, 1000)). -/
def runningViewer : Session :=
  { running := true, resolution := Resolution.AUTO, fps := 0,
    clip_range := (0, 1000), colormap := grayPalette }

theorem C4_get_depth_image_none_iff_witness :
    (get_depth_image runningViewer devOneFrame).1 =
      some (process_depth_image [[DVal.fin 5]] 0 1000 grayPalette) :=
  (C4_get_depth_image_none_iff runningViewer devOneFrame).2.2 rfl rfl
    (by decide) (by decide)

/-- C7: `set_resolution` maps the three known tokens to their enum values and
every other token to the default `HD720`; it is a total function, so no
exception can escape it. -/
theorem C7_set_resolution_default (s : Session) (tok : String)
    (hunk : tok ∉ ["HD1080", "HD720", "VGA"]) :
    (set_resolution s "HD1080").resolution = Resolution.HD1080 ∧
    (set_resolution s "HD720").resolution = Resolution.HD720 ∧
    (set_resolution s "VGA").resolution = Resolution.VGA ∧
    (set_resolution s tok).resolution = Resolution.HD720 := by
  refine ⟨rfl, rfl, rfl, ?_⟩
  simp only [List.mem_cons, List.not_mem_nil, or_false, not_or] at hunk
  obtain ⟨h1, h2, h3⟩ := hunk
  have b1 : (tok == "HD1080") = false := beq_eq_false_iff_ne.mpr h1
  have b2 : (tok == "HD720") = false := beq_eq_false_iff_ne.mpr h2
  have b3 : (tok == "VGA") = false := beq_eq_false_iff_ne.mpr h3
  simp [set_resolution, resolutionTable, List.lookup, b1, b2, b3]

theorem C7_set_resolution_default_witness :
    (set_resolution (mkViewer grayPalette) "4K").resolution = Resolution.HD720 :=
  (C7_set_resolution_default (mkViewer grayPalette) "4K" (by decide)).2.2.2

/-- C6 counterexample: on the unrecognized fps token `"fast"`, `set_fps` does
not fall back to any default — it raises `ValueError` (`int("fast")`), so the
invalid token is surfaced as an error, contrary to the claim. -/
theorem C6_counterexample :
    set_fps (mkViewer grayPalette) "fast" = Except.error "ValueError" := by
  rfl

/-- C6 (amended): `set_fps` parses the token with Python `int`; a token that
parses as an integer is stored as the configured fps, and every
non-integer token raises `ValueError` — there is no fallback default for
fps (only `set_resolution` has one). -/
theorem C6_set_fps_parses_or_raises (s : Session) (tok : String) :
    (∀ n : ℤ, pyInt? tok = some n → set_fps s tok = Except.ok { s with fps := n }) ∧
    (pyInt? tok = none → set_fps s tok = Except.error "ValueError") := by
  constructor
  · intro n hn
    simp [set_fps, hn]
  · intro hn
    simp [set_fps, hn]

theorem C6_set_fps_parses_or_raises_witness :
    set_fps (mkViewer grayPalette) "15" =
      Except.ok { mkViewer grayPalette with fps := 15 } :=
  (C6_set_fps_parses_or_raises (mkViewer grayPalette) "15").1 15 (by decide)

/-- C10: `start` is atomic on failure — a failed open raises with the session
unchanged (`running` still as before, in particular never set to `true`), a
successful open sets `running := true`, and while `running` is `false` every
`get_depth_image` call returns no frame without touching the device. -/
theorem C10_start_atomic (s : Session) :
    start false s = Except.error ("카메라 열기 실패", s) ∧
    start true s = Except.ok { s with running := true } ∧
    (∀ dev : GrabResult, s.running = false → get_depth_image s dev = (none, [])) := by
  refine ⟨rfl, rfl, fun dev hr => ?_⟩
  simp [get_depth_image, hr]

theorem C10_start_atomic_witness :
    start false (mkViewer grayPalette) =
      Except.error ("카메라 열기 실패", mkViewer grayPalette) ∧
    get_depth_image (mkViewer grayPalette) devOneFrame = (none, []) :=
  ⟨(C10_start_atomic (mkViewer grayPalette)).1,
   (C10_start_atomic (mkViewer grayPalette)).2.2 devOneFrame rfl⟩

/-- The application state the controller (`DualZEDViewer`) mutates: the two
sessions, the two image panes (`none` = cleared/blank) and the refresh-timer
flag. -/
structure AppState where
  viewer1 : Session
  viewer2 : Session
  pane1 : Option (List (List Color))
  pane2 : Option (List (List Color))
  timerRunning : Bool

/-- Result of `start_viewing`: on success, the new state plus the trace of
device opens, tagged with the camera number.  An escaped exception carries
the message together with the state and trace at the raise point (Python
mutations performed before the raise persist). -/
abbrev StartResult :=
  Except (String × AppState × List (ℕ × DevEvent)) (AppState × List (ℕ × DevEvent))

/-- The application state after a `start_viewing` call, whether or not an
exception escaped. -/
def resState : StartResult → AppState
  | Except.ok (st, _) => st
  | Except.error (_, st, _) => st

/-- The device-open trace of a `start_viewing` call, whether or not an
exception escaped. -/
def resTrace : StartResult → List (ℕ × DevEvent)
  | Except.ok (_, tr) => tr
  | Except.error (_, _, tr) => tr

/-- The UI selections read at the top of `start_viewing`. -/
structure UIConfig where
  res1 : String
  res2 : String
  fps1 : String
  fps2 : String
  clipMin : ℚ
  clipMax : ℚ
  mode : String

/-- Second half of `start_viewing` (src/app.py lines 155-160): start camera 2
or clear pane 2, then start the refresh timer. -/
def startPhase2 (cfg : UIConfig) (ok2 : Bool) (st : AppState)
    (tr : List (ℕ × DevEvent)) : StartResult :=
  if cfg.mode ∈ ["Both Cameras", "Camera 2 Only"] then
    match start ok2 st.viewer2 with
    | Except.error (e, v2f) =>
        Except.error (e, { st with viewer2 := v2f }, tr ++ [(2, DevEvent.openDev)])
    | Except.ok v2o =>
        Except.ok ({ st with viewer2 := v2o, timerRunning := true },
          tr ++ [(2, DevEvent.openDev)])
  else
    Except.ok ({ st with pane2 := none, timerRunning := true }, tr)

/-- `start_viewing` (src/app.py lines 138-160): push the UI configuration into
both sessions (`set_fps` may raise `ValueError`), then start or clear camera 1,
then camera 2, then start the timer.  `ok1` / `ok2` are the open oracles of the
two devices.  Exceptions propagate: there is no try/except in the source. -/
def start_viewing (cfg : UIConfig) (ok1 ok2 : Bool) (st : AppState) : StartResult :=
  let v1a := set_resolution st.viewer1 cfg.res1
  let v2a := set_resolution st.viewer2 cfg.res2
  match set_fps v1a cfg.fps1 with
  | Except.error e => Except.error (e, { st with viewer1 := v1a, viewer2 := v2a }, [])
  | Except.ok v1b =>
    match set_fps v2a cfg.fps2 with
    | Except.error e => Except.error (e, { st with viewer1 := v1b, viewer2 := v2a }, [])
    | Except.ok v2b =>
      let v1c := set_clip_range v1b cfg.clipMin cfg.clipMax
      let v2c := set_clip_range v2b cfg.clipMin cfg.clipMax
      if cfg.mode ∈ ["Both Cameras", "Camera 1 Only"] then
        match start ok1 v1c with
        | Except.error (e, v1f) =>
            Except.error (e, { st with viewer1 := v1f, viewer2 := v2c },
              [(1, DevEvent.openDev)])
        | Except.ok v1d =>
            startPhase2 cfg ok2 { st with viewer1 := v1d, viewer2 := v2c }
              [(1, DevEvent.openDev)]
      else
        startPhase2 cfg ok2
          { st with viewer1 := v1c, viewer2 := v2c, pane1 := none } []

/-- `update_images` (src/app.py lines 162-173): one timer tick; `dev1` and
`dev2` are the grab oracles of the two cameras for this tick. -/
def update_images (mode : String) (dev1 dev2 : GrabResult) (st : AppState) : AppState :=
  let st1 :=
    if mode ∈ ["Both Cameras", "Camera 1 Only"] then
      match (get_depth_image st.viewer1 dev1).1 with
      | some img => { st with pane1 := some img }
      | none => st
    else st
  if mode ∈ ["Both Cameras", "Camera 2 Only"] then
    match (get_depth_image st1.viewer2 dev2).1 with
    | some img => { st1 with pane2 := some img }
    | none => st1
  else st1

/-- C8: with valid fps tokens and healthy devices, "Both Cameras" opens both
sessions; "Camera 1 Only" opens only session 1 — session 2's running flag is
untouched (a Closed session stays Closed), its device open is never called,
and pane 2 is cleared; "Camera 2 Only" is symmetric. -/
theorem C8_start_selected (cfg : UIConfig) (st : AppState) (n1 n2 : ℤ)
    (hf1 : pyInt? cfg.fps1 = some n1) (hf2 : pyInt? cfg.fps2 = some n2) :
    (cfg.mode = "Both Cameras" →
      (start_viewing cfg true true st).isOk = true ∧
      (resState (start_viewing cfg true true st)).viewer1.running = true ∧
      (resState (start_viewing cfg true true st)).viewer2.running = true) ∧
    (cfg.mode = "Camera 1 Only" → ∀ ok2 : Bool,
      (start_viewing cfg true ok2 st).isOk = true ∧
      (resState (start_viewing cfg true ok2 st)).viewer1.running = true ∧
      (resState (start_viewing cfg true ok2 st)).viewer2.running = st.viewer2.running ∧
      (resState (start_viewing cfg true ok2 st)).pane2 = none ∧
      (2, DevEvent.openDev) ∉ resTrace (start_viewing cfg true ok2 st)) ∧
    (cfg.mode = "Camera 2 Only" → ∀ ok1 : Bool,
      (start_viewing cfg ok1 true st).isOk = true ∧
      (resState (start_viewing cfg ok1 true st)).viewer2.running = true ∧
      (resState (start_viewing cfg ok1 true st)).viewer1.running = st.viewer1.running ∧
      (resState (start_viewing cfg ok1 true st)).pane1 = none ∧
      (1, DevEvent.openDev) ∉ resTrace (start_viewing cfg ok1 true st)) := by
  refine ⟨fun hm => ?_, fun hm ok2 => ?_, fun hm ok1 => ?_⟩ <;>
    simp [start_viewing, startPhase2, set_fps, hf1, hf2, hm, start,
      set_resolution, set_clip_range, resState, resTrace, Except.isOk, Except.toBool]

/-- A fresh application state, as built by `DualZEDViewer.__init__`. -/
def initialState : AppState :=
  { viewer1 := mkViewer grayPalette, viewer2 := mkViewer grayPalette,
    pane1 := none, pane2 := none, timerRunning := false }

/-- UI selections with valid tokens and the given display mode. -/
def cfgWith (mode : String) : UIConfig :=
  { res1 := "HD720", res2 := "HD720", fps1 := "15", fps2 := "30",
    clipMin := 0, clipMax := 1000, mode := mode }

theorem C8_start_selected_witness :
    (start_viewing (cfgWith "Camera 1 Only") true true initialState).isOk = true ∧
    (resState (start_viewing (cfgWith "Camera 1 Only") true true initialState)).viewer1.running
      = true ∧
    (resState (start_viewing (cfgWith "Camera 1 Only") true true initialState)).viewer2.running
      = initialState.viewer2.running ∧
    (resState (start_viewing (cfgWith "Camera 1 Only") true true initialState)).pane2 = none ∧
    (2, DevEvent.openDev) ∉
      resTrace (start_viewing (cfgWith "Camera 1 Only") true true initialState) :=
  (C8_start_selected (cfgWith "Camera 1 Only") initialState 15 30 rfl rfl).2.1 rfl true

/-- C5 counterexample: in "Both Cameras" mode, an open failure on camera 1
makes `start_viewing` raise (`RuntimeError` escapes — the claim's "no crash"
fails) before camera 2 is ever started: the call is not ok, session 2 is
still Closed, and no open of device 2 appears in the trace. -/
theorem C5_counterexample :
    (start_viewing (cfgWith "Both Cameras") false true initialState).isOk = false ∧
    (resState (start_viewing (cfgWith "Both Cameras") false true initialState)).viewer2.running
      = false ∧
    (2, DevEvent.openDev) ∉
      resTrace (start_viewing (cfgWith "Both Cameras") false true initialState) := by
  refine ⟨rfl, rfl, ?_⟩
  decide

/-- C5 (amended): sessions are independent failure domains only across
single-camera modes: in "Camera 2 Only" mode a camera-1 open failure is
irrelevant (camera 1 is never opened) — camera 2 starts, pane 1 is cleared
and no exception escapes; symmetrically for "Camera 1 Only".  In
"Both Cameras" mode, however, an open failure on camera 1 propagates out of
`start_viewing` before camera 2's start is attempted, so camera 2 is not
started. -/
theorem C5_amended_failure_domains (cfg : UIConfig) (st : AppState) (n1 n2 : ℤ)
    (hf1 : pyInt? cfg.fps1 = some n1) (hf2 : pyInt? cfg.fps2 = some n2) :
    (cfg.mode = "Camera 2 Only" → ∀ ok1 : Bool,
      (start_viewing cfg ok1 true st).isOk = true ∧
      (resState (start_viewing cfg ok1 true st)).viewer2.running = true ∧
      (resState (start_viewing cfg ok1 true st)).pane1 = none ∧
      (1, DevEvent.openDev) ∉ resTrace (start_viewing cfg ok1 true st)) ∧
    (cfg.mode = "Camera 1 Only" → ∀ ok2 : Bool,
      (start_viewing cfg true ok2 st).isOk = true ∧
      (resState (start_viewing cfg true ok2 st)).viewer1.running = true ∧
      (resState (start_viewing cfg true ok2 st)).pane2 = none ∧
      (2, DevEvent.openDev) ∉ resTrace (start_viewing cfg true ok2 st)) ∧
    (cfg.mode = "Both Cameras" → ∀ ok2 : Bool,
      (start_viewing cfg false ok2 st).isOk = false ∧
      (resState (start_viewing cfg false ok2 st)).viewer2.running =
        st.viewer2.running ∧
      (2, DevEvent.openDev) ∉ resTrace (start_viewing cfg false ok2 st)) := by
  refine ⟨fun hm ok1 => ?_, fun hm ok2 => ?_, fun hm ok2 => ?_⟩ <;>
    simp [start_viewing, startPhase2, set_fps, hf1, hf2, hm, start,
      set_resolution, set_clip_range, resState, resTrace, Except.isOk, Except.toBool]

theorem C5_amended_failure_domains_witness :
    (start_viewing (cfgWith "Camera 2 Only") false true initialState).isOk = true ∧
    (resState (start_viewing (cfgWith "Camera 2 Only") false true initialState)).viewer2.running
      = true ∧
    (resState (start_viewing (cfgWith "Camera 2 Only") false true initialState)).pane1
      = none ∧
    (1, DevEvent.openDev) ∉
      resTrace (start_viewing (cfgWith "Camera 2 Only") false true initialState) :=
  (C5_amended_failure_domains (cfgWith "Camera 2 Only") initialState 15 30 rfl rfl).1
    rfl false

/-- C9: on one tick, a selected pane is overwritten exactly by a returned
frame: if the session's `get_depth_image` yields a frame it is forwarded to
that pane; if it yields no frame the pane keeps its previous image; a pane
whose session is not selected by the mode is never written. -/
theorem C9_tick_pane_updates (mode : String) (dev1 dev2 : GrabResult) (st : AppState) :
    (mode ∈ ["Both Cameras", "Camera 1 Only"] →
      (∀ img, (get_depth_image st.viewer1 dev1).1 = some img →
        (update_images mode dev1 dev2 st).pane1 = some img) ∧
      ((get_depth_image st.viewer1 dev1).1 = none →
        (update_images mode dev1 dev2 st).pane1 = st.pane1)) ∧
    (mode ∉ ["Both Cameras", "Camera 1 Only"] →
      (update_images mode dev1 dev2 st).pane1 = st.pane1) ∧
    (mode ∈ ["Both Cameras", "Camera 2 Only"] →
      (∀ img, (get_depth_image st.viewer2 dev2).1 = some img →
        (update_images mode dev1 dev2 st).pane2 = some img) ∧
      ((get_depth_image st.viewer2 dev2).1 = none →
        (update_images mode dev1 dev2 st).pane2 = st.pane2)) ∧
    (mode ∉ ["Both Cameras", "Camera 2 Only"] →
      (update_images mode dev1 dev2 st).pane2 = st.pane2) := by
  by_cases h1 : mode ∈ ["Both Cameras", "Camera 1 Only"] <;>
    by_cases h2 : mode ∈ ["Both Cameras", "Camera 2 Only"] <;>
      cases hg1 : (get_depth_image st.viewer1 dev1).1 <;>
        cases hg2 : (get_depth_image st.viewer2 dev2).1 <;>
          simp [update_images, h1, h2, hg1, hg2]

theorem C9_tick_pane_updates_witness :
    (update_images "Camera 1 Only" devOneFrame devOneFrame
        { initialState with viewer1 := runningViewer }).pane1 =
      some (process_depth_image [[DVal.fin 5]] 0 1000 grayPalette) ∧
    (update_images "Camera 1 Only" devOneFrame devOneFrame
        { initialState with viewer1 := runningViewer }).pane2 =
      ({ initialState with viewer1 := runningViewer } : AppState).pane2 :=
  ⟨((C9_tick_pane_updates "Camera 1 Only" devOneFrame devOneFrame
        { initialState with viewer1 := runningViewer }).1 (by decide)).1 _ rfl,
   (C9_tick_pane_updates "Camera 1 Only" devOneFrame devOneFrame
        { initialState with viewer1 := runningViewer }).2.2.2 (by decide)⟩

end App
